import Mathlib

/-
Verification of the media-to-ascii desktop shell (Vue/Tauri front end) and the
spec-described rendering engine it drives.

Shallow embedding conventions:
- JavaScript numbers are modelled as rationals (ℚ); the claims only involve
  order comparisons and small decimal literals, where ℚ is faithful.
- JavaScript `string | null | undefined` fields are `Option String`; JavaScript
  truthiness of such a field is `none ↦ false`, `some s ↦ s ≠ ""`.
- Strings manipulated character-by-character (path joining) are `List Char`.
-/

namespace MediaToAscii

/-- JavaScript `String.prototype.trim`: strip whitespace from both ends.
Written structurally over the character list so that concrete instances
reduce in the kernel. -/
def trimString (s : String) : String :=
  ⟨((s.data.dropWhile Char.isWhitespace).reverse.dropWhile Char.isWhitespace).reverse⟩

/-- JavaScript truthiness of a `string | null | undefined` value:
`null`/`undefined` and the empty string are falsy. -/
def truthy : Option String → Bool
  | none => false
  | some s => s != ""

/-- The normalization `x?.trim() || null` used when building backend payloads:
a missing or whitespace-only path becomes `null`, otherwise it is trimmed. -/
def normalizeOutput : Option String → Option String
  | none => none
  | some s => if trimString s = "" then none else some (trimString s)

/-- `ImageConfig` from `image.ts` (src/unnamed/part_000). -/
structure ImageConfig where
  image_path : String
  scale_down : ℚ
  font_size : ℚ
  height_sample_scale : ℚ
  invert : Bool
  output_file_path : Option String
  output_image_path : Option String
  overwrite : Bool
deriving DecidableEq, Repr

/-- `defaultImageConfig()` from `image.ts` (src/unnamed/part_000). -/
def defaultImageConfig : ImageConfig where
  image_path := ""
  scale_down := 1
  font_size := 12
  height_sample_scale := 2.046
  invert := false
  output_file_path := none
  output_image_path := none
  overwrite := false

namespace ImagePanel

/-- The `validationErrors` computed value of the image panel
(src/unnamed/part_001, lines 40-58): each failed check pushes one message. -/
def validationErrors (c : ImageConfig) : List String :=
  (if trimString c.image_path = "" then ["Input image is required."] else []) ++
  (if truthy c.output_file_path = false ∧ truthy c.output_image_path = false then
    ["Choose at least one output: text file or image file."] else []) ++
  (if c.scale_down ≤ 0 then ["Scale down must be greater than 0."] else []) ++
  (if c.font_size ≤ 0 then ["Font size must be greater than 0."] else []) ++
  (if c.height_sample_scale ≤ 0 then
    ["Height sample scale must be greater than 0."] else [])

/-- The payload `processImage` builds before invoking the backend
(src/unnamed/part_001, lines 106-134): both output paths go through
`x?.trim() || null`. -/
def processImagePayload (c : ImageConfig) : ImageConfig :=
  { c with
    output_file_path := normalizeOutput c.output_file_path
    output_image_path := normalizeOutput c.output_image_path }

/-- A singleton-or-empty error block is empty iff its condition fails. -/
theorem errorBlock_eq_nil (p : Prop) [Decidable p] (m : String) :
    (if p then [m] else []) = ([] : List String) ↔ ¬p := by
  split <;> simp_all

/-- Characterization of acceptance by the image panel: the error list is empty
iff every individual check passes. -/
theorem validationErrors_nil_characterization (c : ImageConfig) :
    validationErrors c = [] ↔
      (trimString c.image_path ≠ "" ∧
        (truthy c.output_file_path = true ∨ truthy c.output_image_path = true) ∧
        0 < c.scale_down ∧ 0 < c.font_size ∧ 0 < c.height_sample_scale) := by
  unfold validationErrors
  simp only [List.append_eq_nil, errorBlock_eq_nil, not_and, not_le,
    Bool.not_eq_false]
  constructor
  · rintro ⟨⟨⟨⟨h1, h2⟩, h3⟩, h4⟩, h5⟩
    refine ⟨h1, ?_, h3, h4, h5⟩
    cases hf : truthy c.output_file_path with
    | true => exact Or.inl rfl
    | false => exact Or.inr (h2 hf)
  · rintro ⟨h1, h2, h3, h4, h5⟩
    refine ⟨⟨⟨⟨h1, ?_⟩, h3⟩, h4⟩, h5⟩
    intro hf
    rcases h2 with h | h
    · exact absurd h (by simp [hf])
    · exact h

end ImagePanel

/-- C2: the image-panel validation accepts a configuration (empty error list)
iff the trimmed image path is non-empty, at least one output path is truthy,
and scale_down, font_size and height_sample_scale are each strictly
positive. -/
theorem image_validation_accepts_iff (c : ImageConfig) :
    ImagePanel.validationErrors c = [] ↔
      (trimString c.image_path ≠ "" ∧
        (truthy c.output_file_path = true ∨ truthy c.output_image_path = true) ∧
        0 < c.scale_down ∧ 0 < c.font_size ∧ 0 < c.height_sample_scale) :=
  ImagePanel.validationErrors_nil_characterization c

/-- C8: `defaultImageConfig()` has scale_down 1, font_size 12 and
height_sample_scale 2.046 (all strictly positive), invert and overwrite false,
empty image path and both outputs null, and the default configuration fails
validation with exactly the missing-input and missing-output errors. -/
theorem defaultImageConfig_validation :
    defaultImageConfig.scale_down = 1 ∧
    defaultImageConfig.font_size = 12 ∧
    defaultImageConfig.height_sample_scale = 2.046 ∧
    0 < defaultImageConfig.scale_down ∧
    0 < defaultImageConfig.font_size ∧
    0 < defaultImageConfig.height_sample_scale ∧
    defaultImageConfig.invert = false ∧
    defaultImageConfig.overwrite = false ∧
    defaultImageConfig.image_path = "" ∧
    defaultImageConfig.output_file_path = none ∧
    defaultImageConfig.output_image_path = none ∧
    ImagePanel.validationErrors defaultImageConfig =
      ["Input image is required.",
        "Choose at least one output: text file or image file."] := by
  have h3 : ¬((1 : ℚ) ≤ 0) := by norm_num
  have h4 : ¬((12 : ℚ) ≤ 0) := by norm_num
  have h5 : ¬((2.046 : ℚ) ≤ 0) := by norm_num
  refine ⟨rfl, rfl, rfl, by norm_num [defaultImageConfig],
    by norm_num [defaultImageConfig], by norm_num [defaultImageConfig],
    rfl, rfl, rfl, rfl, rfl, ?_⟩
  simp [ImagePanel.validationErrors, defaultImageConfig, truthy, h3, h4, h5,
    show trimString "" = "" from rfl]

/-- An image configuration whose only output path is a single space: it passes
validation (a whitespace string is truthy) but the payload normalization turns
it into `null`. -/
def whitespaceOutputConfig : ImageConfig where
  image_path := "in.png"
  scale_down := 1
  font_size := 12
  height_sample_scale := 2.046
  invert := false
  output_file_path := some " "
  output_image_path := none
  overwrite := false

/-- C1 (counterexample): a configuration accepted by validation whose payload
has both output sinks null after the trim-or-null normalization. -/
theorem image_payload_sink_counterexample :
    ImagePanel.validationErrors whitespaceOutputConfig = [] ∧
    (ImagePanel.processImagePayload whitespaceOutputConfig).output_file_path = none ∧
    (ImagePanel.processImagePayload whitespaceOutputConfig).output_image_path = none := by
  refine ⟨(ImagePanel.validationErrors_nil_characterization _).mpr
    ⟨by decide, Or.inl (by decide), by norm_num [whitespaceOutputConfig],
      by norm_num [whitespaceOutputConfig], by norm_num [whitespaceOutputConfig]⟩,
    by decide, by decide⟩

/-- C1 (amended): for every accepted image configuration whose set output
paths do not trim to the empty string, the payload passed to `process_image`
has at least one non-null output sink. -/
theorem image_payload_sink_of_accepted (c : ImageConfig)
    (hacc : ImagePanel.validationErrors c = [])
    (hf : (c.output_file_path.all fun s => trimString s != "") = true)
    (hi : (c.output_image_path.all fun s => trimString s != "") = true) :
    (ImagePanel.processImagePayload c).output_file_path ≠ none ∨
    (ImagePanel.processImagePayload c).output_image_path ≠ none := by
  rcases ((ImagePanel.validationErrors_nil_characterization c).mp hacc).2.1 with h | h
  · left
    cases hfp : c.output_file_path with
    | none => rw [hfp] at h; simp [truthy] at h
    | some s =>
      rw [hfp] at hf
      simp only [Option.all_some, bne_iff_ne, ne_eq] at hf
      simp [ImagePanel.processImagePayload, normalizeOutput, hfp, hf]
  · right
    cases hip : c.output_image_path with
    | none => rw [hip] at h; simp [truthy] at h
    | some s =>
      rw [hip] at hi
      simp only [Option.all_some, bne_iff_ne, ne_eq] at hi
      simp [ImagePanel.processImagePayload, normalizeOutput, hip, hi]

/-- C1 witness: the amended theorem applied to a concrete accepted
configuration with a real text-output path. -/
theorem image_payload_sink_witness :
    (ImagePanel.processImagePayload
        ⟨"in.png", 1, 12, 2.046, false, some "out.txt", none, false⟩).output_file_path ≠ none ∨
    (ImagePanel.processImagePayload
        ⟨"in.png", 1, 12, 2.046, false, some "out.txt", none, false⟩).output_image_path ≠ none :=
  image_payload_sink_of_accepted _
    ((ImagePanel.validationErrors_nil_characterization _).mpr
      ⟨by decide, Or.inl (by decide), by norm_num, by norm_num, by norm_num⟩)
    (by decide) (by decide)

/-- A singleton-or-empty error block contains a string iff its condition holds
and the string is that block's message. -/
theorem mem_errorBlock (p : Prop) [Decidable p] (a m : String) :
    a ∈ (if p then [m] else ([] : List String)) ↔ p ∧ a = m := by
  split <;> simp_all

/-- `VideoConfig` as used by the video panel (src/mediatoascii-app/src/video/
Video.vue) and described by the spec's video `RenderConfig` variant. -/
structure VideoConfig where
  video_path : String
  output_video_path : Option String
  scale_down : ℚ
  font_size : ℚ
  height_sample_scale : ℚ
  max_fps : ℚ
  use_max_fps_for_output_video : Bool
  rotate : ℚ
  invert : Bool
  overwrite : Bool
deriving DecidableEq, Repr

namespace VideoPanel

/-- The `validationErrors` computed value of the video panel
(src/mediatoascii-app/src/video/Video.vue, lines 63-92). -/
def validationErrors (c : VideoConfig) : List String :=
  (if trimString c.video_path = "" then ["Input video is required."] else []) ++
  (if truthy c.output_video_path = false ∨
      trimString (c.output_video_path.getD "") = "" then
    ["Output video path is required (MP4)."] else []) ++
  (if c.scale_down ≤ 0 then ["Scale down must be greater than 0."] else []) ++
  (if c.font_size ≤ 0 then ["Font size must be greater than 0."] else []) ++
  (if c.height_sample_scale ≤ 0 then
    ["Height sample scale must be greater than 0."] else []) ++
  (if c.max_fps ≤ 0 then ["Max FPS must be greater than 0."] else []) ++
  (if c.rotate ≠ -1 ∧ ¬(c.rotate = 0 ∨ c.rotate = 1 ∨ c.rotate = 2) then
    ["Rotate must be -1 (no rotate), 0 (90 CW), 1 (180), or 2 (90 CCW)."]
  else [])

/-- The state update installed by `attachProgressListener`
(src/mediatoascii-app/src/video/Video.vue, lines 53-61):
`progress.value = Math.min(100, Math.floor(event.payload * 100))`. -/
def attachProgressListenerUpdate (payload : ℚ) : ℤ :=
  min 100 ⌊payload * 100⌋

end VideoPanel

/-- C3: the video-panel rotate validation reports its error exactly when
`rotate` lies outside the enum set, and every value in \x7b-1, 0, 1, 2\x7d
passes with no rotate error. -/
theorem video_rotate_error_iff (c : VideoConfig) :
    ("Rotate must be -1 (no rotate), 0 (90 CW), 1 (180), or 2 (90 CCW)." ∈
        VideoPanel.validationErrors c) ↔
      ¬(c.rotate = -1 ∨ c.rotate = 0 ∨ c.rotate = 1 ∨ c.rotate = 2) := by
  simp only [VideoPanel.validationErrors, List.mem_append, mem_errorBlock]
  simp [show "Rotate must be -1 (no rotate), 0 (90 CW), 1 (180), or 2 (90 CCW)." ≠
      "Input video is required." from by decide,
    show "Rotate must be -1 (no rotate), 0 (90 CW), 1 (180), or 2 (90 CCW)." ≠
      "Output video path is required (MP4)." from by decide,
    show "Rotate must be -1 (no rotate), 0 (90 CW), 1 (180), or 2 (90 CCW)." ≠
      "Scale down must be greater than 0." from by decide,
    show "Rotate must be -1 (no rotate), 0 (90 CW), 1 (180), or 2 (90 CCW)." ≠
      "Font size must be greater than 0." from by decide,
    show "Rotate must be -1 (no rotate), 0 (90 CW), 1 (180), or 2 (90 CCW)." ≠
      "Height sample scale must be greater than 0." from by decide,
    show "Rotate must be -1 (no rotate), 0 (90 CW), 1 (180), or 2 (90 CCW)." ≠
      "Max FPS must be greater than 0." from by decide]

/-- C4: every payload `p` with `0 ≤ p ≤ 1` received on the video-progress feed
yields a displayed progress `min(100, floor(p * 100))` lying within
`[0, 100]`. -/
theorem video_progress_display_bounds (p : ℚ) (h0 : 0 ≤ p) (hp : p ≤ 1) :
    0 ≤ VideoPanel.attachProgressListenerUpdate p ∧
      VideoPanel.attachProgressListenerUpdate p ≤ 100 := by
  unfold VideoPanel.attachProgressListenerUpdate
  refine ⟨le_min (by norm_num) ?_, min_le_left _ _⟩
  have h100 : p * 100 ≤ 100 := by nlinarith
  exact Int.le_floor.mpr (by push_cast; nlinarith)

/-- C4 witness: the bounds theorem applied at the concrete payload 1/2. -/
theorem video_progress_display_bounds_witness :
    0 ≤ VideoPanel.attachProgressListenerUpdate (1/2) ∧
      VideoPanel.attachProgressListenerUpdate (1/2) ≤ 100 :=
  video_progress_display_bounds (1/2) (by norm_num) (by norm_num)

/-- C5: for any monotonically non-decreasing sequence of payloads in `[0,1]`
delivered on the video-progress feed, the displayed values
`min(100, floor(p * 100))` form a non-decreasing sequence. -/
theorem video_progress_display_monotone (f : ℕ → ℚ)
    (hmono : ∀ i j, i ≤ j → f i ≤ f j)
    (hbound : ∀ n, 0 ≤ f n ∧ f n ≤ 1) :
    ∀ i j, i ≤ j →
      VideoPanel.attachProgressListenerUpdate (f i) ≤
        VideoPanel.attachProgressListenerUpdate (f j) := by
  intro i j hij
  unfold VideoPanel.attachProgressListenerUpdate
  refine min_le_min le_rfl (Int.floor_le_floor ?_)
  exact mul_le_mul_of_nonneg_right (hmono i j hij) (by norm_num)

/-- C5 witness: the monotonicity theorem applied to the constant sequence
1/2 at indices 0 and 1. -/
theorem video_progress_display_monotone_witness :
    VideoPanel.attachProgressListenerUpdate ((fun _ : ℕ => (1 : ℚ)/2) 0) ≤
      VideoPanel.attachProgressListenerUpdate ((fun _ : ℕ => (1 : ℚ)/2) 1) :=
  video_progress_display_monotone (fun _ => 1/2)
    (fun _ _ _ => le_rfl) (fun _ => by norm_num) 0 1 (by norm_num)

/-- The UI status values of both panels. -/
inductive UiStatus where
  | idle
  | processing
  | done
  | error
deriving DecidableEq, Repr

/-- The pieces of video-panel state written by `processVideo` when the backend
call settles. -/
structure VideoUiState where
  progress : ℤ
  status : UiStatus
  statusDetail : String
  processError : Option String
  outputPath : Option String
deriving DecidableEq, Repr

namespace VideoPanel

/-- The settling behavior of `processVideo`
(src/mediatoascii-app/src/video/Video.vue, lines 145-178): the payload trims
the output path to `null`-or-trimmed; on resolution the shell sets progress
100, status done and the output path; on rejection it records the error and
leaves the progress at whatever the listener last wrote
(`progressDuring`). -/
def processVideoRun (c : VideoConfig) (result : Except String Unit)
    (progressDuring : ℤ) : VideoUiState :=
  let payload : VideoConfig :=
    { c with output_video_path := normalizeOutput c.output_video_path }
  match result with
  | .ok _ =>
    { progress := 100
      status := .done
      statusDetail := "Finished writing output"
      processError := none
      outputPath := payload.output_video_path }
  | .error e =>
    { progress := progressDuring
      status := .error
      statusDetail := "Something went wrong"
      processError := some e
      outputPath := none }

end VideoPanel

/-- Helper for the spec-modelled video progress emission: the reports after
`k` of `total` frames have been consumed. -/
def videoProgressAux (total : ℕ) : ℕ → List ℚ
  | 0 => []
  | k + 1 => videoProgressAux total k ++ [((k + 1 : ℕ) : ℚ) / (total : ℚ)]

/-- Modelled from the spec: the backend Video Pipeline is not among the
visible sources; per §4.5 it emits a ProgressReport equal to
`frames_consumed / total_frames_estimate` per consumed frame, finishing with
the report for the last frame. -/
def videoProgressReports (total : ℕ) : List ℚ :=
  videoProgressAux total total

theorem videoProgressAux_getLast? (total k : ℕ) (h : 0 < k) :
    (videoProgressAux total k).getLast? = some ((k : ℚ) / (total : ℚ)) := by
  cases k with
  | zero => exact absurd h (by norm_num)
  | succ n => exact List.getLast?_concat _

/-- C6: a successful video run ends with progress exactly complete: the last
report of the spec-modelled progress stream is exactly 1, and when
`process_video` resolves without error the shell sets the displayed progress
to 100 and the status to done. -/
theorem processVideo_success_complete (total : ℕ) (c : VideoConfig)
    (progressDuring : ℤ) (h : 0 < total) :
    (videoProgressReports total).getLast? = some 1 ∧
    (VideoPanel.processVideoRun c (.ok ()) progressDuring).progress = 100 ∧
    (VideoPanel.processVideoRun c (.ok ()) progressDuring).status = .done := by
  refine ⟨?_, rfl, rfl⟩
  rw [videoProgressReports, videoProgressAux_getLast? total total h,
    div_self (by positivity)]

/-- C6 witness: a one-frame run with a concrete configuration. -/
theorem processVideo_success_complete_witness :
    (videoProgressReports 1).getLast? = some 1 ∧
    (VideoPanel.processVideoRun
        ⟨"in.mp4", some "out/output.mp4", 1, 12, 2.046, 30, false, -1, false, false⟩
        (.ok ()) 37).progress = 100 ∧
    (VideoPanel.processVideoRun
        ⟨"in.mp4", some "out/output.mp4", 1, 12, 2.046, 30, false, -1, false, false⟩
        (.ok ()) 37).status = .done :=
  processVideo_success_complete 1 _ 37 (by norm_num)

/-- An output sink of the spec-modelled Image Pipeline writing stage: its
destination path and whether a file already exists there. -/
structure Sink where
  path : String
  fileExists : Bool
deriving DecidableEq, Repr

/-- The failure taxonomy of the spec-modelled engine (§7), restricted to what
the writing stage can raise. -/
inductive AsciiError where
  | outputExists
deriving DecidableEq, Repr

/-- Modelled from the spec: the backend Image Pipeline is not among the
visible sources; per §4.4 step 3 the writing stage first checks every
requested sink's overwrite guard. -/
def checkSinks (overwrite : Bool) : List Sink → Option AsciiError
  | [] => none
  | s :: rest =>
    if s.fileExists && !overwrite then some .outputExists
    else checkSinks overwrite rest

/-- Modelled from the spec: after all checks pass, every requested sink is
written; the result lists the destinations written to. -/
def writeSinks : List Sink → List String
  | [] => []
  | s :: rest => s.path :: writeSinks rest

/-- Modelled from the spec: the writing stage of the Image Pipeline — check
every sink before writing any sink. -/
def imagePipelineWrite (overwrite : Bool) (sinks : List Sink) :
    Except AsciiError (List String) :=
  match checkSinks overwrite sinks with
  | some e => .error e
  | none => .ok (writeSinks sinks)

/-- The destinations actually written by a run of the writing stage: none on
failure. -/
def writtenOutputs (overwrite : Bool) (sinks : List Sink) : List String :=
  match imagePipelineWrite overwrite sinks with
  | .error _ => []
  | .ok l => l

theorem checkSinks_none_or_exists (overwrite : Bool) (sinks : List Sink) :
    checkSinks overwrite sinks = none ∨
      (checkSinks overwrite sinks = some .outputExists ∧
        ∃ s ∈ sinks, s.fileExists = true ∧ overwrite = false) := by
  induction sinks with
  | nil => exact Or.inl rfl
  | cons s rest ih =>
    by_cases h : s.fileExists && !overwrite
    · rcases Bool.and_eq_true _ _ |>.mp h with ⟨h1, h2⟩
      exact Or.inr ⟨by simp [checkSinks, h], s, List.mem_cons_self s rest,
        h1, by simpa using h2⟩
    · rcases ih with ih | ⟨ih, t, ht, ha, hb⟩
      · exact Or.inl (by simp [checkSinks, h, ih])
      · exact Or.inr ⟨by simp [checkSinks, h, ih], t, List.mem_cons_of_mem s ht,
          ha, hb⟩

theorem writeSinks_eq_map (sinks : List Sink) :
    writeSinks sinks = sinks.map Sink.path := by
  induction sinks with
  | nil => rfl
  | cons s rest ih => simp [writeSinks, ih]

/-- C7: for every image run over any set of requested sinks, either all
requested sinks are written or none are; a failed overwrite/existence check
leaves no written output, and a failure happens only when some requested
destination exists with overwrite false. -/
theorem imageWrite_all_or_nothing (overwrite : Bool) (sinks : List Sink) :
    (writtenOutputs overwrite sinks = [] ∧
      imagePipelineWrite overwrite sinks = .error .outputExists ∧
      ∃ s ∈ sinks, s.fileExists = true ∧ overwrite = false) ∨
    (writtenOutputs overwrite sinks = sinks.map Sink.path ∧
      imagePipelineWrite overwrite sinks = .ok (sinks.map Sink.path)) := by
  rcases checkSinks_none_or_exists overwrite sinks with h | ⟨h, hw⟩
  · exact Or.inr ⟨by simp [writtenOutputs, imagePipelineWrite, h, writeSinks_eq_map],
      by simp [imagePipelineWrite, h, writeSinks_eq_map]⟩
  · exact Or.inl ⟨by simp [writtenOutputs, imagePipelineWrite, h],
      by simp [imagePipelineWrite, h], hw⟩

/-- The fields a stored JSON object may or may not carry: `JSON.parse` output
as far as the spread-merge `\x7b...defaultImageConfig(), ...JSON.parse(saved)\x7d`
consumes it. A present field overrides the default, including an explicit
`null` for an output path. -/
structure StoredImageFields where
  image_path : Option String
  scale_down : Option ℚ
  font_size : Option ℚ
  height_sample_scale : Option ℚ
  invert : Option Bool
  output_file_path : Option (Option String)
  output_image_path : Option (Option String)
  overwrite : Option Bool
deriving DecidableEq, Repr

/-- The object-spread merge `\x7b...base, ...stored\x7d`: each field present in the
stored object overrides the base value. -/
def mergeConfig (base : ImageConfig) (p : StoredImageFields) : ImageConfig where
  image_path := p.image_path.getD base.image_path
  scale_down := p.scale_down.getD base.scale_down
  font_size := p.font_size.getD base.font_size
  height_sample_scale := p.height_sample_scale.getD base.height_sample_scale
  invert := p.invert.getD base.invert
  output_file_path := p.output_file_path.getD base.output_file_path
  output_image_path := p.output_image_path.getD base.output_image_path
  overwrite := p.overwrite.getD base.overwrite

namespace ImagePanel

/-- `loadPersistedConfig` from the image panel (src/unnamed/part_001, lines
20-30; the video panel's copy in Video.vue lines 23-33 has the same shape).
The stored value is `none` when nothing is persisted; `parse` abstracts
`JSON.parse`, returning `none` when it throws. An empty stored string is
falsy, so it takes the default branch like a missing entry. -/
def loadPersistedConfig (saved : Option String)
    (parse : String → Option StoredImageFields) : ImageConfig :=
  match saved with
  | none => defaultImageConfig
  | some s =>
    if s = "" then defaultImageConfig
    else
      match parse s with
      | some p => mergeConfig defaultImageConfig p
      | none => defaultImageConfig

end ImagePanel

/-- C9: `loadPersistedConfig` is total over arbitrary persisted content: with
nothing stored, or when parsing throws, it returns the default configuration;
otherwise it returns the spread-merge of the default with the parsed fields,
in which every absent field takes its default value. -/
theorem loadPersistedConfig_total (parse : String → Option StoredImageFields)
    (s : String) (p : StoredImageFields) :
    ImagePanel.loadPersistedConfig none parse = defaultImageConfig ∧
    (parse s = none → ImagePanel.loadPersistedConfig (some s) parse = defaultImageConfig) ∧
    (s ≠ "" → parse s = some p →
      ImagePanel.loadPersistedConfig (some s) parse = mergeConfig defaultImageConfig p) ∧
    (mergeConfig defaultImageConfig p).image_path = p.image_path.getD "" ∧
    (mergeConfig defaultImageConfig p).scale_down = p.scale_down.getD 1 ∧
    (mergeConfig defaultImageConfig p).font_size = p.font_size.getD 12 ∧
    (mergeConfig defaultImageConfig p).height_sample_scale =
      p.height_sample_scale.getD 2.046 ∧
    (mergeConfig defaultImageConfig p).invert = p.invert.getD false ∧
    (mergeConfig defaultImageConfig p).output_file_path =
      p.output_file_path.getD none ∧
    (mergeConfig defaultImageConfig p).output_image_path =
      p.output_image_path.getD none ∧
    (mergeConfig defaultImageConfig p).overwrite = p.overwrite.getD false := by
  refine ⟨rfl, ?_, ?_, rfl, rfl, rfl, rfl, rfl, rfl, rfl, rfl⟩
  · intro h
    by_cases hs : s = "" <;> simp [ImagePanel.loadPersistedConfig, hs, h]
  · intro hs h
    simp [ImagePanel.loadPersistedConfig, hs, h]

/-- C9 witness: the totality theorem applied to a concrete failing parse and a
concrete stored object. -/
theorem loadPersistedConfig_total_witness :
    ImagePanel.loadPersistedConfig (some "cfg") (fun _ => none) = defaultImageConfig :=
  (loadPersistedConfig_total (fun _ => none) "cfg"
    ⟨none, none, none, none, none, none, none, none⟩).2.1 rfl

namespace VideoPanel

/-- The separator chosen by `pickOutputFile`
(src/mediatoascii-app/src/video/Video.vue, lines 108-125): a backslash when
the chosen directory contains one, a forward slash otherwise. Paths are
embedded as character lists. -/
def sepFor (d : List Char) : List Char :=
  if '\\' ∈ d then ['\\'] else ['/']

/-- The output path `pickOutputFile` stores for a picked directory `d`: append
the separator unless `d` already ends with it, then append `output.mp4`. -/
def pickOutputFilePath (d : List Char) : List Char :=
  (if (sepFor d).isSuffixOf d then d else d ++ sepFor d) ++ "output.mp4".data

end VideoPanel

/-- C10 (counterexample): for the picked directory `/home/`, which already
ends with the chosen separator, the stored path is not the directory followed
by one more separator and `output.mp4`. -/
theorem pickOutputFile_counterexample :
    VideoPanel.pickOutputFilePath "/home/".data ≠
      "/home/".data ++ VideoPanel.sepFor "/home/".data ++ "output.mp4".data := by
  decide

/-- C10 (amended): `pickOutputFile` appends the separator (backslash when the
directory contains one, slash otherwise) only when the directory does not
already end with it, then appends `output.mp4`; the stored path always ends
with separator-then-`output.mp4`, and the code never appends a separator
after an existing trailing one. -/
theorem pickOutputFile_join (d : List Char) :
    (VideoPanel.sepFor d ++ "output.mp4".data) <:+ VideoPanel.pickOutputFilePath d ∧
    (VideoPanel.sepFor d <:+ d →
      VideoPanel.pickOutputFilePath d = d ++ "output.mp4".data) ∧
    (¬ VideoPanel.sepFor d <:+ d →
      VideoPanel.pickOutputFilePath d = d ++ VideoPanel.sepFor d ++ "output.mp4".data) := by
  refine ⟨?_, ?_, ?_⟩
  · unfold VideoPanel.pickOutputFilePath
    split
    · rename_i h
      rcases List.isSuffixOf_iff_suffix.mp h with ⟨t, ht⟩
      exact ⟨t, by rw [← List.append_assoc, ht]⟩
    · exact ⟨d, by rw [List.append_assoc]⟩
  · intro h
    unfold VideoPanel.pickOutputFilePath
    rw [if_pos (List.isSuffixOf_iff_suffix.mpr h)]
  · intro h
    unfold VideoPanel.pickOutputFilePath
    rw [if_neg (fun hc => h (List.isSuffixOf_iff_suffix.mp hc)), List.append_assoc]

/-- C10 witness: the amended theorem at the concrete directory `C:\out`,
which does not end with its separator. -/
theorem pickOutputFile_join_witness :
    VideoPanel.pickOutputFilePath "C:\\out".data =
      "C:\\out".data ++ VideoPanel.sepFor "C:\\out".data ++ "output.mp4".data :=
  (pickOutputFile_join "C:\\out".data).2.2 (by decide)

end MediaToAscii
